import Mathlib

/-
Verification of the kairon repository: an event-sourced double-entry ledger
(src/ledger-system) and a reconciliation engine (src/recon_engine).

Shallow embedding conventions:
- Fixed-point decimal amounts are modelled as rationals (ℚ).
- UUIDs are modelled as Nat (ledger) or String (recon txn ids).
- Timestamps are modelled as integer seconds.
- Database tables keyed by a unique column are modelled as functions
  `key → Option row`; the append-only ledger_events table is a list.
- A storage call that can raise is modelled with an explicit fault oracle;
  `DatabaseManager.get_transaction` (asyncpg `conn.transaction()`) commits on
  normal exit and rolls back every write of the transaction when the body
  raises, so a faulting transaction body returns the caller's original state.
-/

namespace Kairon

/-! ## Ledger data model (app/models) -/

inductive EventType
  | DEBIT
  | CREDIT
  | TRANSFER
deriving DecidableEq, Repr

inductive EventStatus
  | PENDING
  | SETTLED
  | FAILED
deriving DecidableEq, Repr

/-- A row of the ledger_events table (app/models/event.py `LedgerEvent`);
timestamps and the metadata bag play no part in the ledger claims and are
omitted. -/
structure LedgerEvent where
  source_account_id : Option Nat
  destination_account_id : Option Nat
  amount : ℚ
  currency : String
  event_type : EventType
  transaction_id : Nat
  status : EventStatus
deriving DecidableEq, Repr

/-- A row of the balances table (app/models/balance.py `Balance`), minus the
last_updated timestamp. -/
structure Balance where
  currency : String
  available_balance : ℚ
  pending_balance : ℚ
  version : Nat
deriving DecidableEq, Repr

/-- app/models/event.py `TransferRequest`. -/
structure TransferRequest where
  source_account_id : Nat
  destination_account_id : Nat
  amount : ℚ
  currency : String
deriving DecidableEq, Repr

/-- app/config.py `Settings` (the business-rule keys). -/
structure Settings where
  allow_overdraft : Bool
  max_transaction_amount : ℚ
deriving DecidableEq, Repr

def defaultSettings : Settings :=
  { allow_overdraft := false, max_transaction_amount := 1000000 }

/-- The storage substrate visible to the ledger core: the accounts table
(id ↦ currency; the type and metadata columns play no part in the claims),
the append-only ledger_events table, and the balances table (account_id is
unique, so the table is a partial map). -/
structure LedgerState where
  accounts : Nat → Option String
  events : List LedgerEvent
  balances : Nat → Option Balance

def LedgerState.empty : LedgerState :=
  { accounts := fun _ => none, events := [], balances := fun _ => none }

/-! ## Repositories (app/repositories) -/

/-- app/repositories/account_repository.py `AccountRepository.create`:
INSERT INTO accounts; the id is server-generated, modelled as the `aid`
argument. -/
def AccountRepository.create (accounts : Nat → Option String) (aid : Nat)
    (currency : String) : Nat → Option String :=
  fun a => if a = aid then some currency else accounts a

/-- app/repositories/account_repository.py `AccountRepository.exists`. -/
def AccountRepository.accountExists (accounts : Nat → Option String) (aid : Nat) : Bool :=
  (accounts aid).isSome

/-- app/repositories/balance_repository.py `BalanceRepository.upsert_balance`:
INSERT .. ON CONFLICT (account_id) DO UPDATE SET
available_balance = balances.available_balance + $3,
pending_balance = balances.pending_balance + $4,
version = balances.version + 1. A fresh row starts at version 0 (schema
default). -/
def BalanceRepository.upsert_balance (bs : Nat → Option Balance) (aid : Nat)
    (currency : String) (available_delta pending_delta : ℚ) : Nat → Option Balance :=
  fun a =>
    if a = aid then
      some (match bs aid with
        | some b =>
            { b with
              available_balance := b.available_balance + available_delta
              pending_balance := b.pending_balance + pending_delta
              version := b.version + 1 }
        | none =>
            { currency := currency
              available_balance := available_delta
              pending_balance := pending_delta
              version := 0 })
    else bs a

/-- app/repositories/balance_repository.py `BalanceRepository.check_sufficient_funds`:
a missing balance row reads as insufficient. -/
def BalanceRepository.check_sufficient_funds (bs : Nat → Option Balance)
    (aid : Nat) (amount : ℚ) : Bool :=
  match bs aid with
  | none => false
  | some b => decide (amount ≤ b.available_balance)

/-! ## CommandProcessor (app/services/command_processor.py) -/

/-- `CommandProcessor.validate_transfer`: accumulates every violated rule. -/
def CommandProcessor.validate_transfer (accounts : Nat → Option String)
    (s : Settings) (t : TransferRequest) : List String :=
  let e1 := if t.amount ≤ 0 then ["Amount must be positive"] else []
  let e2 := if s.max_transaction_amount < t.amount then
      ["Amount exceeds maximum limit of " ++ toString s.max_transaction_amount] else []
  let e3 := if t.source_account_id = t.destination_account_id then
      ["Source and destination accounts must be different"] else []
  let src := accounts t.source_account_id
  let e4 := if src.isNone then ["Source account does not exist"] else []
  let dst := accounts t.destination_account_id
  let e5 := if dst.isNone then ["Destination account does not exist"] else []
  let e6 :=
    match src, dst with
    | some source_currency, some dest_currency =>
        (if source_currency ≠ t.currency then
          ["Transfer currency doesn\x27t match source account currency"] else []) ++
        (if dest_currency ≠ t.currency then
          ["Transfer currency doesn\x27t match destination account currency"] else [])
    | _, _ => []
  e1 ++ e2 ++ e3 ++ e4 ++ e5 ++ e6

/-- `CommandProcessor.validate_sufficient_funds`. -/
def CommandProcessor.validate_sufficient_funds (s : Settings)
    (bs : Nat → Option Balance) (aid : Nat) (amount : ℚ) : Bool :=
  if s.allow_overdraft then true
  else BalanceRepository.check_sufficient_funds bs aid amount

/-! ## EventStore (app/services/event_store.py) -/

/-- The debit row written by `EventStore.create_transfer_events`. -/
def EventStore.debitEvent (txid : Nat) (t : TransferRequest) : LedgerEvent :=
  { source_account_id := some t.source_account_id
    destination_account_id := none
    amount := t.amount
    currency := t.currency
    event_type := EventType.DEBIT
    transaction_id := txid
    status := EventStatus.SETTLED }

/-- The credit row written by `EventStore.create_transfer_events`. -/
def EventStore.creditEvent (txid : Nat) (t : TransferRequest) : LedgerEvent :=
  { source_account_id := none
    destination_account_id := some t.destination_account_id
    amount := t.amount
    currency := t.currency
    event_type := EventType.CREDIT
    transaction_id := txid
    status := EventStatus.SETTLED }

/-- `EventStore.create_transfer_events`: a fresh transaction_id (uuid4,
modelled as the `txid` argument) shared by the DEBIT row and the CREDIT row,
inserted in that order. -/
def EventStore.create_transfer_events (txid : Nat) (t : TransferRequest) :
    List LedgerEvent :=
  [EventStore.debitEvent txid t, EventStore.creditEvent txid t]

/-! ## ProjectionEngine (app/services/projection_engine.py) -/

/-- One entry of the `balance_updates` dict built by
`ProjectionEngine.project_events_to_balances`. -/
structure BalanceUpdate where
  currency : String
  available_delta : ℚ
  pending_delta : ℚ
deriving DecidableEq, Repr

/-- Adding a delta for one account into the `balance_updates` dict (Python
dicts preserve insertion order, modelled as an association list). -/
def addAvailableDelta (m : List (Nat × BalanceUpdate)) (aid : Nat)
    (currency : String) (d : ℚ) : List (Nat × BalanceUpdate) :=
  match m.lookup aid with
  | some _ =>
      m.map fun p =>
        if p.1 = aid then
          (p.1, { p.2 with available_delta := p.2.available_delta + d })
        else p
  | none => m ++ [(aid, { currency := currency, available_delta := d, pending_delta := 0 })]

/-- The per-event accumulation step of `project_events_to_balances`:
a DEBIT with a source account subtracts its amount, a CREDIT with a
destination account adds its amount; every other event is skipped. -/
def ProjectionEngine.projStep (m : List (Nat × BalanceUpdate)) (e : LedgerEvent) :
    List (Nat × BalanceUpdate) :=
  match e.event_type, e.source_account_id, e.destination_account_id with
  | EventType.DEBIT, some a, _ => addAvailableDelta m a e.currency (-e.amount)
  | EventType.CREDIT, _, some a => addAvailableDelta m a e.currency e.amount
  | _, _, _ => m

def ProjectionEngine.balance_updates (events : List LedgerEvent) :
    List (Nat × BalanceUpdate) :=
  events.foldl ProjectionEngine.projStep []

/-- `ProjectionEngine.project_events_to_balances`: apply each aggregated
delta with the atomic upsert. -/
def ProjectionEngine.project_events_to_balances (bs : Nat → Option Balance)
    (events : List LedgerEvent) : Nat → Option Balance :=
  (ProjectionEngine.balance_updates events).foldl
    (fun acc p =>
      BalanceRepository.upsert_balance acc p.1 p.2.currency p.2.available_delta
        p.2.pending_delta)
    bs

/-! ## LedgerService (app/services/ledger_service.py) -/

/-- The fault oracle for storage calls inside the transfer transaction. -/
inductive StorageFault
  | ok
  | onDebitInsert
  | onCreditInsert
  | onProjection
deriving DecidableEq, Repr

inductive TransferOutcome
  | failure (errors : List String)
  | dbError
  | success (transaction_id : Nat) (events : List LedgerEvent)
deriving DecidableEq, Repr

def TransferOutcome.isSuccess : TransferOutcome → Bool
  | .success _ _ => true
  | _ => false

/-- The body of the transfer transaction (`LedgerService.transfer_funds`
inside `db_manager.get_transaction()`): funds check, event append,
projection. A storage fault anywhere inside the transaction raises, and the
rollback restores the caller's state, so every fault case returns `st`
unchanged; the early insufficient-funds return commits having written
nothing. -/
def LedgerService.transferTx (s : Settings) (st : LedgerState)
    (t : TransferRequest) (txid : Nat) (fault : StorageFault) :
    TransferOutcome × LedgerState :=
  if CommandProcessor.validate_sufficient_funds s st.balances t.source_account_id t.amount
      = false then (.failure ["Insufficient funds"], st)
  else if fault = StorageFault.onDebitInsert then (.dbError, st)
  else if fault = StorageFault.onCreditInsert then (.dbError, st)
  else if fault = StorageFault.onProjection then (.dbError, st)
  else
    let events := EventStore.create_transfer_events txid t
    let balances2 := ProjectionEngine.project_events_to_balances st.balances events
    (.success txid events, { st with events := st.events ++ events, balances := balances2 })

/-- `LedgerService.transfer_funds`: validate, then run the transaction. -/
def LedgerService.transfer_funds (s : Settings) (st : LedgerState)
    (t : TransferRequest) (txid : Nat) (fault : StorageFault) :
    TransferOutcome × LedgerState :=
  if CommandProcessor.validate_transfer st.accounts s t = [] then
    LedgerService.transferTx s st t txid fault
  else (.failure (CommandProcessor.validate_transfer st.accounts s t), st)

/-- The fault oracle for `LedgerService.create_account`. -/
inductive CreateFault
  | ok
  | onAccountInsert
  | onBalanceInsert
deriving DecidableEq, Repr

inductive CreateOutcome
  | ok
  | storageError
deriving DecidableEq, Repr

/-- `LedgerService.create_account`: the account INSERT runs on its own pooled
connection (`AccountRepository.create` opens `db_manager.get_connection`,
which auto-commits), and only afterwards is the zero balance row inserted in
a second, separate transaction — so a fault during the balance insert leaves
the already-committed account row behind. -/
def LedgerService.create_account (st : LedgerState) (aid : Nat)
    (currency : String) (fault : CreateFault) : CreateOutcome × LedgerState :=
  match fault with
  | .onAccountInsert => (.storageError, st)
  | .onBalanceInsert =>
      (.storageError, { st with accounts := AccountRepository.create st.accounts aid currency })
  | .ok =>
      let st1 := { st with accounts := AccountRepository.create st.accounts aid currency }
      (.ok, { st1 with
        balances := BalanceRepository.upsert_balance st1.balances aid currency 0 0 })

/-! ## Operation sequences over the ledger -/

inductive Op
  | createAccount (aid : Nat) (currency : String) (fault : CreateFault)
  | transfer (t : TransferRequest) (txid : Nat) (fault : StorageFault)

def applyOp (s : Settings) (st : LedgerState) : Op → LedgerState
  | .createAccount aid currency fault => (LedgerService.create_account st aid currency fault).2
  | .transfer t txid fault => (LedgerService.transfer_funds s st t txid fault).2

def runOps (s : Settings) (ops : List Op) : LedgerState :=
  ops.foldl (applyOp s) LedgerState.empty

/-! ## Observations used by the ledger claims -/

/-- The available balance read off a balances table (0 when no row exists). -/
def availQ (bs : Nat → Option Balance) (a : Nat) : ℚ :=
  match bs a with
  | some b => b.available_balance
  | none => 0

/-- The stored available balance of an account (0 when no row exists). -/
def availOf (st : LedgerState) (a : Nat) : ℚ :=
  availQ st.balances a

/-- The stored version of a balance row (0 when no row exists). -/
def versionOf (st : LedgerState) (a : Nat) : Nat :=
  match st.balances a with
  | some b => b.version
  | none => 0

/-- Sum of the amounts of SETTLED CREDIT events whose destination is `a`. -/
def settledCreditSum (es : List LedgerEvent) (a : Nat) : ℚ :=
  ((es.filter fun e =>
      decide (e.event_type = EventType.CREDIT ∧ e.status = EventStatus.SETTLED ∧
        e.destination_account_id = some a)).map
    (fun e => e.amount)).sum

/-- Sum of the amounts of SETTLED DEBIT events whose source is `a`. -/
def settledDebitSum (es : List LedgerEvent) (a : Nat) : ℚ :=
  ((es.filter fun e =>
      decide (e.event_type = EventType.DEBIT ∧ e.status = EventStatus.SETTLED ∧
        e.source_account_id = some a)).map
    (fun e => e.amount)).sum

/-- Sum of CREDIT amounts carrying a given transaction_id and currency. -/
def txCreditSum (es : List LedgerEvent) (tid : Nat) (currency : String) : ℚ :=
  ((es.filter fun e =>
      decide (e.event_type = EventType.CREDIT ∧ e.transaction_id = tid ∧
        e.currency = currency)).map
    (fun e => e.amount)).sum

/-- Sum of DEBIT amounts carrying a given transaction_id and currency. -/
def txDebitSum (es : List LedgerEvent) (tid : Nat) (currency : String) : ℚ :=
  ((es.filter fun e =>
      decide (e.event_type = EventType.DEBIT ∧ e.transaction_id = tid ∧
        e.currency = currency)).map
    (fun e => e.amount)).sum

/-! ## Reconciliation data model (recon_engine/recon/recon_model.py) -/

/-- `ExternalTxn`; metadata values are modelled as strings (the recon code
always compares them through `str(...)`). -/
structure ExternalTxn where
  txn_id : String
  amount : ℚ
  currency : String
  timestamp : Int
  description : Option String
  metadata : List (String × String)
deriving DecidableEq, Repr

/-- `LedgerTxn`; note it has no description field, so the description branch
of the fuzzy metadata similarity never fires. -/
structure LedgerTxn where
  id : String
  transaction_id : String
  amount : ℚ
  currency : String
  timestamp : Int
  event_type : String
  metadata : List (String × String)
deriving DecidableEq, Repr

/-- `MatchResult`. -/
structure MatchResult where
  matched : Bool
  match_score : ℚ
  mismatch_reason : Option String
  ledger_txn_id : Option String
  external_txn_id : String
  amount_diff : ℚ
  timestamp_diff_seconds : Int
  metadata : List (String × String)
deriving DecidableEq, Repr

/-- recon_engine/config.py `ReconSettings` (the matching keys; the fuzzy
weights dict is flattened into its three entries). -/
structure ReconSettings where
  amount_tolerance_percent : ℚ
  timestamp_tolerance_seconds : ℚ
  w_amount : ℚ
  w_timestamp : ℚ
  w_metadata : ℚ
  min_match_score : ℚ
deriving DecidableEq, Repr

def defaultReconSettings : ReconSettings :=
  { amount_tolerance_percent := 1/10
    timestamp_tolerance_seconds := 300
    w_amount := 2/5
    w_timestamp := 3/10
    w_metadata := 3/10
    min_match_score := 4/5 }

/-! ## BaseMatcher (recon_engine/matchers/base_matcher.py) -/

/-- `BaseMatcher._create_match_result`; `matcherName` stands for
`self.__class__.__name__`. -/
def create_match_result (matcherName : String) (ext : ExternalTxn)
    (ledger : Option LedgerTxn) (matched : Bool) (score : ℚ)
    (reason : Option String) : MatchResult :=
  { matched := matched
    match_score := score
    mismatch_reason := reason
    ledger_txn_id := ledger.map (fun l => l.id)
    external_txn_id := ext.txn_id
    amount_diff := match ledger with
      | some l => ext.amount - l.amount
      | none => 0
    timestamp_diff_seconds := match ledger with
      | some l => ext.timestamp - l.timestamp
      | none => 0
    metadata :=
      [("external_description", ext.description.getD ""),
       ("ledger_event_type", match ledger with | some l => l.event_type | none => ""),
       ("match_criteria", matcherName)] }

/-! ## ExactMatcher (recon_engine/matchers/exact_matcher.py) -/

/-- The cross-reference condition of `ExactMatcher._find_exact_id_match`:
the ledger txn metadata carries the external id under `external_txn_id`, or
the external metadata carries the ledger row id under `ledger_txn_id`. -/
def crossRef (ext : ExternalTxn) (l : LedgerTxn) : Prop :=
  l.metadata.lookup "external_txn_id" = some ext.txn_id ∨
  ext.metadata.lookup "ledger_txn_id" = some l.id

instance (ext : ExternalTxn) (l : LedgerTxn) : Decidable (crossRef ext l) := by
  unfold crossRef; infer_instance

/-- `ExactMatcher._find_exact_id_match`: the first cross-referenced ledger
txn, if any. -/
def find_exact_id_match (ext : ExternalTxn) (ltxns : List LedgerTxn) :
    Option LedgerTxn :=
  ltxns.find? fun l => decide (crossRef ext l)

/-- The condition of `ExactMatcher._find_exact_amount_matches`: equal amount
and currency, timestamp within tolerance. -/
def amountMatchCond (cfg : ReconSettings) (ext : ExternalTxn) (l : LedgerTxn) : Prop :=
  l.amount = ext.amount ∧ l.currency = ext.currency ∧
  ((|l.timestamp - ext.timestamp| : Int) : ℚ) ≤ cfg.timestamp_tolerance_seconds

instance (cfg : ReconSettings) (ext : ExternalTxn) (l : LedgerTxn) :
    Decidable (amountMatchCond cfg ext l) := by
  unfold amountMatchCond; infer_instance

/-- `ExactMatcher._find_exact_amount_matches`. -/
def find_exact_amount_matches (cfg : ReconSettings) (ext : ExternalTxn)
    (ltxns : List LedgerTxn) : List LedgerTxn :=
  ltxns.filter fun l => decide (amountMatchCond cfg ext l)

/-- `ExactMatcher._validate_exact_match`: re-check amount, currency and
timestamp tolerance; the first failing check produces the reason; all-pass
yields matched with score 1.0. -/
def validate_exact_match (cfg : ReconSettings) (ext : ExternalTxn)
    (l : LedgerTxn) : MatchResult :=
  if ext.amount ≠ l.amount then
    create_match_result "ExactMatcher" ext (some l) false 0
      (some ("Amount mismatch: external=" ++ toString ext.amount ++
        ", ledger=" ++ toString l.amount))
  else if ext.currency ≠ l.currency then
    create_match_result "ExactMatcher" ext (some l) false 0
      (some ("Currency mismatch: external=" ++ ext.currency ++
        ", ledger=" ++ l.currency))
  else if cfg.timestamp_tolerance_seconds < ((|l.timestamp - ext.timestamp| : Int) : ℚ) then
    create_match_result "ExactMatcher" ext (some l) false 0
      (some ("Timestamp outside tolerance: diff=" ++
        toString (|l.timestamp - ext.timestamp|) ++ "s"))
  else
    create_match_result "ExactMatcher" ext (some l) true 1 none

/-- `ExactMatcher.match` (named matchTxn; `match` is reserved in Lean). -/
def ExactMatcher.matchTxn (cfg : ReconSettings) (ext : ExternalTxn)
    (ltxns : List LedgerTxn) : MatchResult :=
  match find_exact_id_match ext ltxns with
  | some l => validate_exact_match cfg ext l
  | none =>
      match find_exact_amount_matches cfg ext ltxns with
      | [l] => validate_exact_match cfg ext l
      | [] => create_match_result "ExactMatcher" ext none false 0
          (some "No exact match found")
      | _ => create_match_result "ExactMatcher" ext none false 0
          (some "Multiple exact amount matches found")

/-! ## FuzzyMatcher (recon_engine/matchers/fuzzy_matcher.py)

The difflib.SequenceMatcher.ratio string-similarity primitive is taken as a
parameter `strSim`; the claims only use that its values lie in [0, 1]. -/

/-- The message of the TypeError raised by
`diff_percent / tolerance_percent` (Decimal / float) in the
within-tolerance branch of `_calculate_amount_similarity`. -/
def typeErrorDivMsg : String :=
  "unsupported operand type(s) for /: \x27decimal.Decimal\x27 and \x27float\x27"

/-- The message of the TypeError raised by `1.0 - diff_percent`
(float - Decimal) in the outside-tolerance branch of
`_calculate_amount_similarity`. -/
def typeErrorSubMsg : String :=
  "unsupported operand type(s) for -: \x27float\x27 and \x27decimal.Decimal\x27"

/-- `FuzzyMatcher._calculate_amount_similarity`. The amounts are Decimal
(the pydantic models and every source reader build Decimal), while
`tolerance_percent = recon_settings.amount_tolerance_percent / 100` is a
Python float. Decimal-to-float comparison is legal, so the branch test
`diff_percent <= tolerance_percent` evaluates, but both branch return
expressions mix Decimal and float arithmetic and raise TypeError:
`diff_percent / tolerance_percent` in the within-tolerance branch and
`1.0 - diff_percent` in the outside branch. The function therefore returns
only 1.0 (equal amounts) or 0.0 (zero average) and raises on every other
input. (The float 0.001 differs from the rational 1/1000 by about 2e-19,
which can only shift which of the two TypeErrors is raised at the exact
branch boundary.) -/
def calculate_amount_similarity (cfg : ReconSettings)
    (external_amount ledger_amount : ℚ) : Except String ℚ :=
  if external_amount = ledger_amount then .ok 1
  else if (external_amount + ledger_amount) / 2 = 0 then .ok 0
  else if |external_amount - ledger_amount| / ((external_amount + ledger_amount) / 2) ≤
      cfg.amount_tolerance_percent / 100 then .error typeErrorDivMsg
  else .error typeErrorSubMsg

/-- `FuzzyMatcher._calculate_timestamp_similarity` in terms of the absolute
time difference `d` in seconds: linear decay to 0.5 at the tolerance, then
linear decay to 0 at 10 times the tolerance. -/
def ts_sim_of_diff (tolerance d : ℚ) : ℚ :=
  if d ≤ tolerance then 1 - d / tolerance * (1/2)
  else if tolerance * 10 < d then 0
  else (1/2) * (1 - (d - tolerance) / (tolerance * 10 - tolerance))

/-- `FuzzyMatcher._calculate_timestamp_similarity`. -/
def calculate_timestamp_similarity (cfg : ReconSettings)
    (external_timestamp ledger_timestamp : Int) : ℚ :=
  ts_sim_of_diff cfg.timestamp_tolerance_seconds
    ((|external_timestamp - ledger_timestamp| : Int) : ℚ)

/-- Substring test (Python `in` on strings). -/
def strContains (s pat : String) : Bool :=
  decide (pat.toList <:+: s.toList)

/-- Python `str.lower` (per-character case folding). -/
def pyLower (s : String) : String :=
  String.mk (s.toList.map Char.toLower)

/-- Python `str.strip`: drop leading and trailing whitespace. -/
def pyTrim (s : String) : String :=
  String.mk (((s.toList.dropWhile Char.isWhitespace).reverse.dropWhile
    Char.isWhitespace).reverse)

/-- Key filter of `FuzzyMatcher._compare_transaction_references`: the key
contains "ref" or "id" (case-folded). -/
def keyIsRefOrId (k : String) : Bool :=
  strContains (pyLower k) "ref" || strContains (pyLower k) "id"

/-- `FuzzyMatcher._compare_transaction_references` (an absent or empty
description is falsy in Python). -/
def compare_transaction_references (ext : ExternalTxn) (l : LedgerTxn) : ℚ :=
  if l.metadata.any (fun p => keyIsRefOrId p.1 && (pyLower p.2 == pyLower ext.txn_id)) then 1
  else if ext.metadata.any (fun p => keyIsRefOrId p.1 && (pyLower p.2 == pyLower l.id)) then 1
  else if ext.description.getD "" = "" then 0
  else if strContains (pyLower (ext.description.getD "")) (pyLower l.id) then 4/5
  else if strContains (pyLower (ext.description.getD "")) (pyLower l.transaction_id) then 4/5
  else 0

/-- The per-shared-key scores of `FuzzyMatcher._calculate_metadata_similarity`:
for each key present in both bags with nonempty normalised values, 1.0 on
exact equality, else the fuzzy string ratio. -/
def metaPairScores (strSim : String → String → ℚ) (extMeta ledMeta : List (String × String)) :
    List ℚ :=
  extMeta.foldr
    (fun kv acc =>
      match ledMeta.lookup kv.1 with
      | none => acc
      | some w =>
          if pyTrim (pyLower kv.2) = "" ∨ pyTrim (pyLower w) = "" then acc
          else if pyTrim (pyLower kv.2) = pyTrim (pyLower w) then 1 :: acc
          else strSim (pyTrim (pyLower kv.2)) (pyTrim (pyLower w)) :: acc)
    []

/-- The `similarity_scores` list built by
`FuzzyMatcher._calculate_metadata_similarity`: the per-shared-key scores,
with the transaction-reference score appended when positive. -/
def metaSimScores (strSim : String → String → ℚ)
    (ext : ExternalTxn) (l : LedgerTxn) : List ℚ :=
  if 0 < compare_transaction_references ext l then
    metaPairScores strSim ext.metadata l.metadata ++ [compare_transaction_references ext l]
  else metaPairScores strSim ext.metadata l.metadata

/-- `FuzzyMatcher._calculate_metadata_similarity`: the description-to-
description comparison is dead code (LedgerTxn has no description attribute,
so the `hasattr` guard is always false); the remaining signals combine with
the quadratic-weighted mean `Σ s_i^2 / Σ s_i`, with 0.5 when no signal is
available and 0 when the signals sum to 0. -/
def calculate_metadata_similarity (strSim : String → String → ℚ)
    (ext : ExternalTxn) (l : LedgerTxn) : ℚ :=
  if metaSimScores strSim ext l = [] then 1/2
  else if 0 < (metaSimScores strSim ext l).sum then
    ((metaSimScores strSim ext l).map fun sc => sc * sc).sum / (metaSimScores strSim ext l).sum
  else 0

/-- `FuzzyMatcher._calculate_match_score`: the amount similarity is
computed first, so its TypeError propagates before the timestamp, metadata
or currency terms are evaluated; otherwise the weighted combination gated
by currency equality. -/
def calculate_match_score (strSim : String → String → ℚ) (cfg : ReconSettings)
    (ext : ExternalTxn) (l : LedgerTxn) : Except String ℚ :=
  match calculate_amount_similarity cfg ext.amount l.amount with
  | .error e => .error e
  | .ok amount_score =>
      .ok ((amount_score * cfg.w_amount +
        calculate_timestamp_similarity cfg ext.timestamp l.timestamp * cfg.w_timestamp +
        calculate_metadata_similarity strSim ext l * cfg.w_metadata) *
        (if ext.currency = l.currency then 1 else 0))

/-- The best-candidate loop of `FuzzyMatcher.match`: best score starts at
0.0 and only a strictly greater score replaces it; the first candidate
whose score computation raises aborts the whole loop. -/
def fuzzyBest (strSim : String → String → ℚ) (cfg : ReconSettings)
    (ext : ExternalTxn) : List LedgerTxn → (Option LedgerTxn × ℚ) →
    Except String (Option LedgerTxn × ℚ)
  | [], acc => .ok acc
  | l :: rest, acc =>
      match calculate_match_score strSim cfg ext l with
      | .error e => .error e
      | .ok sc =>
          fuzzyBest strSim cfg ext rest (if acc.2 < sc then (some l, sc) else acc)

/-- `FuzzyMatcher.match` (named matchTxn; `match` is reserved in Lean):
raises whenever scoring any candidate raises. The Python formats the
below-threshold reason with `f"{best_score:.3f}"`; the reason string here
carries the exact rational instead. -/
def FuzzyMatcher.matchTxn (strSim : String → String → ℚ) (cfg : ReconSettings)
    (ext : ExternalTxn) (ltxns : List LedgerTxn) : Except String MatchResult :=
  match fuzzyBest strSim cfg ext ltxns (none, 0) with
  | .error e => .error e
  | .ok best =>
      if cfg.min_match_score ≤ best.2 then
        .ok (create_match_result "FuzzyMatcher" ext best.1 true best.2 none)
      else
        .ok (create_match_result "FuzzyMatcher" ext best.1 false best.2
          (some ("Best match score " ++ toString best.2 ++
            " below threshold " ++ toString cfg.min_match_score)))

/-! ## ReconEngine orchestrator (recon_engine/recon/recon_engine.py) -/

/-- Python dict assignment `d[k] = v`: replace in place, else append. -/
def metaSet (m : List (String × String)) (k v : String) : List (String × String) :=
  if (m.lookup k).isSome then
    m.map fun p => if p.1 = k then (p.1, v) else p
  else m ++ [(k, v)]

/-- Python `dict.update` over an ordered key/value list. -/
def metaUpdate (m : List (String × String)) (kvs : List (String × String)) :
    List (String × String) :=
  kvs.foldl (fun acc p => metaSet acc p.1 p.2) m

/-- The currency prefilter of `ReconEngine._match_transaction`. -/
def currencyFiltered (ext : ExternalTxn) (ltxns : List LedgerTxn) : List LedgerTxn :=
  ltxns.filter fun (l : LedgerTxn) => l.currency == ext.currency

/-- `ReconEngine._match_transaction`: currency filter, exact matcher, then
fuzzy matcher, keeping the higher score (exact wins ties); a TypeError
raised inside the fuzzy matcher propagates to the caller. -/
def match_transaction (strSim : String → String → ℚ) (cfg : ReconSettings)
    (ext : ExternalTxn) (ltxns : List LedgerTxn) : Except String MatchResult :=
  if currencyFiltered ext ltxns = [] then
    .ok { matched := false
          match_score := 0
          mismatch_reason := some ("No ledger transactions found for currency " ++ ext.currency)
          ledger_txn_id := none
          external_txn_id := ext.txn_id
          amount_diff := 0
          timestamp_diff_seconds := 0
          metadata := [] }
  else if (ExactMatcher.matchTxn cfg ext (currencyFiltered ext ltxns)).matched then
    .ok (ExactMatcher.matchTxn cfg ext (currencyFiltered ext ltxns))
  else
    match FuzzyMatcher.matchTxn strSim cfg ext (currencyFiltered ext ltxns) with
    | .error e => .error e
    | .ok fuzzy_result =>
        .ok (if (ExactMatcher.matchTxn cfg ext (currencyFiltered ext ltxns)).match_score <
            fuzzy_result.match_score then fuzzy_result
          else ExactMatcher.matchTxn cfg ext (currencyFiltered ext ltxns))

/-- The external-transaction entries `_enhance_match_result` adds to the
result metadata. -/
def externalEnhancement (ext : ExternalTxn) : List (String × String) :=
  [("external_amount", toString ext.amount),
   ("external_currency", ext.currency),
   ("external_timestamp", toString ext.timestamp),
   ("external_description", ext.description.getD "")]

/-- The ledger-transaction entries `_enhance_match_result` adds when the
matched ledger transaction is resolvable. -/
def ledgerEnhancement (l : LedgerTxn) : List (String × String) :=
  [("ledger_amount", toString l.amount),
   ("ledger_currency", l.currency),
   ("ledger_timestamp", toString l.timestamp),
   ("ledger_event_type", l.event_type)]

/-- `ReconEngine._enhance_match_result`: copy the result metadata and update
it with the external (and, when resolvable, ledger) transaction data. -/
def enhance_match_result (r : MatchResult) (ext : ExternalTxn)
    (ltxns : List LedgerTxn) : MatchResult :=
  { r with metadata :=
      match (match r.ledger_txn_id with
             | some lid => ltxns.find? fun (l : LedgerTxn) => l.id == lid
             | none => none) with
      | some l => metaUpdate (metaUpdate r.metadata (externalEnhancement ext))
          (ledgerEnhancement l)
      | none => metaUpdate r.metadata (externalEnhancement ext) }

/-- The unmatched result the orchestrator synthesises when matching a row
throws. -/
def processing_error_result (ext : ExternalTxn) (msg : String) : MatchResult :=
  { matched := false
    match_score := 0
    mismatch_reason := some ("Processing error: " ++ msg)
    ledger_txn_id := none
    external_txn_id := ext.txn_id
    amount_diff := 0
    timestamp_diff_seconds := 0
    metadata := [] }

/-- What `ReconLogger.log_result` persists of a MatchResult into recon_logs;
the currency column is populated from `metadata.get("currency")`. -/
structure LoggedRow where
  external_txn_id : String
  ledger_txn_id : Option String
  matched : Bool
  mismatch_reason : Option String
  match_score : ℚ
  amount_difference : ℚ
  ledger_amount : Option String
  external_amount : Option String
  currency : Option String
  timestamp_diff_seconds : Int
  metadata : List (String × String)
deriving DecidableEq, Repr

/-- `ReconLogger.log_result` (recon_engine/recon/recon_logger.py): the row
INSERTed into recon_logs. -/
def ReconLogger.log_result (r : MatchResult) : LoggedRow :=
  { external_txn_id := r.external_txn_id
    ledger_txn_id := r.ledger_txn_id
    matched := r.matched
    mismatch_reason := r.mismatch_reason
    match_score := r.match_score
    amount_difference := r.amount_diff
    ledger_amount := r.metadata.lookup "ledger_amount"
    external_amount := r.metadata.lookup "external_amount"
    currency := r.metadata.lookup "currency"
    timestamp_diff_seconds := r.timestamp_diff_seconds
    metadata := r.metadata }

inductive ReconStatus
  | PENDING
  | RUNNING
  | COMPLETED
  | FAILED
deriving DecidableEq, Repr

/-- The observable outcome of `ReconEngine.run` once loading succeeded. -/
structure RunResult where
  logs : List LoggedRow
  matched_count : Nat
  unmatched_count : Nat
  status : ReconStatus
deriving DecidableEq, Repr

/-- The per-external-transaction step of `ReconEngine.run`: matching plus
enhancement, which may raise (modelled as `Except`); the concrete pipeline
is `pipelineStep` below. -/
def rowFor (step : ExternalTxn → Except String MatchResult) (ext : ExternalTxn) :
    LoggedRow :=
  match step ext with
  | .ok r => ReconLogger.log_result r
  | .error msg => ReconLogger.log_result (processing_error_result ext msg)

/-- The per-external-transaction loop of `ReconEngine.run`, accumulating
the written log rows and the matched/unmatched tallies. -/
def runFold (step : ExternalTxn → Except String MatchResult)
    (external_txns : List ExternalTxn) : List LoggedRow × Nat × Nat :=
  external_txns.foldl
    (fun (acc : List LoggedRow × Nat × Nat) ext =>
      match step ext with
      | .ok r =>
          (acc.1 ++ [ReconLogger.log_result r],
           if r.matched then acc.2.1 + 1 else acc.2.1,
           if r.matched then acc.2.2 else acc.2.2 + 1)
      | .error msg =>
          (acc.1 ++ [ReconLogger.log_result (processing_error_result ext msg)],
           acc.2.1,
           acc.2.2 + 1))
    ([], 0, 0)

/-- `ReconEngine.run` after the external and ledger loads succeeded: each
row is matched inside a try/except that degrades a throwing row to an
unmatched "Processing error" log entry and keeps iterating; the job is then
finalised COMPLETED with the tallies. -/
def ReconEngine.run (step : ExternalTxn → Except String MatchResult)
    (external_txns : List ExternalTxn) : RunResult :=
  { logs := (runFold step external_txns).1
    matched_count := (runFold step external_txns).2.1
    unmatched_count := (runFold step external_txns).2.2
    status := ReconStatus.COMPLETED }

/-- The concrete per-row pipeline: `_match_transaction` followed by
`_enhance_match_result`; a TypeError escaping the matchers (the fuzzy
Decimal/float slip) reaches the per-row except handler as `str(e)`. -/
def pipelineStep (strSim : String → String → ℚ) (cfg : ReconSettings)
    (ltxns : List LedgerTxn) (ext : ExternalTxn) : Except String MatchResult :=
  match match_transaction strSim cfg ext ltxns with
  | .error e => .error e
  | .ok r => .ok (enhance_match_result r ext ltxns)

/-- Whether the per-row step produced a matched result (a throwing row counts
as unmatched). -/
def stepMatched (step : ExternalTxn → Except String MatchResult)
    (e : ExternalTxn) : Bool :=
  match step e with
  | .ok r => r.matched
  | .error _ => false

/-! # Helper lemmas: ledger balances and event sums -/

lemma availQ_upsert (bs : Nat → Option Balance) (aid : Nat) (cur : String)
    (ad pd : ℚ) (a : Nat) :
    availQ (BalanceRepository.upsert_balance bs aid cur ad pd) a =
      if a = aid then availQ bs a + ad else availQ bs a := by
  unfold availQ BalanceRepository.upsert_balance
  by_cases h : a = aid
  · subst h
    cases hb : bs a <;> simp [hb]
  · simp [h]

lemma settledCreditSum_append (es es2 : List LedgerEvent) (a : Nat) :
    settledCreditSum (es ++ es2) a = settledCreditSum es a + settledCreditSum es2 a := by
  simp [settledCreditSum, List.filter_append]

lemma settledDebitSum_append (es es2 : List LedgerEvent) (a : Nat) :
    settledDebitSum (es ++ es2) a = settledDebitSum es a + settledDebitSum es2 a := by
  simp [settledDebitSum, List.filter_append]

lemma settledCreditSum_pair (txid : Nat) (t : TransferRequest) (a : Nat) :
    settledCreditSum (EventStore.create_transfer_events txid t) a =
      if t.destination_account_id = a then t.amount else 0 := by
  by_cases h : t.destination_account_id = a <;>
    simp [settledCreditSum, EventStore.create_transfer_events, EventStore.debitEvent,
      EventStore.creditEvent, List.filter, h]

lemma settledDebitSum_pair (txid : Nat) (t : TransferRequest) (a : Nat) :
    settledDebitSum (EventStore.create_transfer_events txid t) a =
      if t.source_account_id = a then t.amount else 0 := by
  by_cases h : t.source_account_id = a <;>
    simp [settledDebitSum, EventStore.create_transfer_events, EventStore.debitEvent,
      EventStore.creditEvent, List.filter, h]

lemma txCreditSum_append (es es2 : List LedgerEvent) (tid : Nat) (cur : String) :
    txCreditSum (es ++ es2) tid cur = txCreditSum es tid cur + txCreditSum es2 tid cur := by
  simp [txCreditSum, List.filter_append]

lemma txDebitSum_append (es es2 : List LedgerEvent) (tid : Nat) (cur : String) :
    txDebitSum (es ++ es2) tid cur = txDebitSum es tid cur + txDebitSum es2 tid cur := by
  simp [txDebitSum, List.filter_append]

lemma txCreditSum_pair (txid : Nat) (t : TransferRequest) (tid : Nat) (cur : String) :
    txCreditSum (EventStore.create_transfer_events txid t) tid cur =
      if txid = tid ∧ t.currency = cur then t.amount else 0 := by
  by_cases h1 : txid = tid <;> by_cases h2 : t.currency = cur <;>
    simp [txCreditSum, EventStore.create_transfer_events, EventStore.debitEvent,
      EventStore.creditEvent, List.filter, h1, h2]

lemma txDebitSum_pair (txid : Nat) (t : TransferRequest) (tid : Nat) (cur : String) :
    txDebitSum (EventStore.create_transfer_events txid t) tid cur =
      if txid = tid ∧ t.currency = cur then t.amount else 0 := by
  by_cases h1 : txid = tid <;> by_cases h2 : t.currency = cur <;>
    simp [txDebitSum, EventStore.create_transfer_events, EventStore.debitEvent,
      EventStore.creditEvent, List.filter, h1, h2]

lemma validate_transfer_nil_ne (accounts : Nat → Option String) (s : Settings)
    (t : TransferRequest)
    (h : CommandProcessor.validate_transfer accounts s t = []) :
    t.source_account_id ≠ t.destination_account_id := by
  intro he
  simp [CommandProcessor.validate_transfer, he] at h

lemma balance_updates_pair (txid : Nat) (t : TransferRequest)
    (hne : t.source_account_id ≠ t.destination_account_id) :
    ProjectionEngine.balance_updates (EventStore.create_transfer_events txid t) =
      [(t.source_account_id,
          { currency := t.currency, available_delta := -t.amount, pending_delta := 0 }),
       (t.destination_account_id,
          { currency := t.currency, available_delta := t.amount, pending_delta := 0 })] := by
  simp [ProjectionEngine.balance_updates, EventStore.create_transfer_events,
    EventStore.debitEvent, EventStore.creditEvent, ProjectionEngine.projStep,
    addAvailableDelta, List.lookup, Ne.symm hne,
    beq_eq_false_iff_ne.mpr (Ne.symm hne)]

lemma project_pair (bs : Nat → Option Balance) (txid : Nat) (t : TransferRequest)
    (hne : t.source_account_id ≠ t.destination_account_id) :
    ProjectionEngine.project_events_to_balances bs (EventStore.create_transfer_events txid t) =
      BalanceRepository.upsert_balance
        (BalanceRepository.upsert_balance bs t.source_account_id t.currency (-t.amount) 0)
        t.destination_account_id t.currency t.amount 0 := by
  simp [ProjectionEngine.project_events_to_balances, balance_updates_pair txid t hne]

/-! # Helper lemmas: the two ledger invariants are preserved by every step -/

lemma transfer_funds_snd_proj (s : Settings) (st : LedgerState) (t : TransferRequest)
    (txid : Nat) (fault : StorageFault)
    (h : ∀ a, availOf st a = settledCreditSum st.events a - settledDebitSum st.events a) :
    ∀ a, availOf (LedgerService.transfer_funds s st t txid fault).2 a =
      settledCreditSum (LedgerService.transfer_funds s st t txid fault).2.events a -
        settledDebitSum (LedgerService.transfer_funds s st t txid fault).2.events a := by
  intro a
  unfold LedgerService.transfer_funds
  split
  case isTrue hval =>
    have hne := validate_transfer_nil_ne st.accounts s t hval
    unfold LedgerService.transferTx
    split
    · exact h a
    · split
      · exact h a
      · split
        · exact h a
        · split
          · exact h a
          · -- success: two events appended, two upserts applied
            simp only [availOf, settledCreditSum_append, settledDebitSum_append,
              settledCreditSum_pair, settledDebitSum_pair]
            rw [project_pair st.balances txid t hne, availQ_upsert, availQ_upsert]
            have ha := h a
            simp only [availOf] at ha
            by_cases hd : a = t.destination_account_id
            · subst hd
              simp [hne, Ne.symm hne, ha]
              ring
            · by_cases hs : a = t.source_account_id
              · subst hs
                simp [hne, Ne.symm hd, hd, ha]
                ring
              · simp [hs, hd, Ne.symm hs, Ne.symm hd, ha]
  case isFalse hval => exact h a

lemma create_account_snd_proj (st : LedgerState) (aid : Nat) (cur : String)
    (fault : CreateFault)
    (h : ∀ a, availOf st a = settledCreditSum st.events a - settledDebitSum st.events a) :
    ∀ a, availOf (LedgerService.create_account st aid cur fault).2 a =
      settledCreditSum (LedgerService.create_account st aid cur fault).2.events a -
        settledDebitSum (LedgerService.create_account st aid cur fault).2.events a := by
  intro a
  cases fault with
  | onAccountInsert => exact h a
  | onBalanceInsert => exact h a
  | ok =>
      have ha := h a
      simp only [availOf] at ha ⊢
      simp only [LedgerService.create_account]
      rw [availQ_upsert]
      by_cases hd : a = aid
      · subst hd; simp [ha]
      · simp [hd, ha]

lemma runOps_proj_aux (s : Settings) (ops : List Op) :
    ∀ st, (∀ a, availOf st a = settledCreditSum st.events a - settledDebitSum st.events a) →
      ∀ a, availOf (ops.foldl (applyOp s) st) a =
        settledCreditSum (ops.foldl (applyOp s) st).events a -
          settledDebitSum (ops.foldl (applyOp s) st).events a := by
  induction ops with
  | nil => intro st h; exact h
  | cons op rest ih =>
      intro st h
      apply ih
      cases op with
      | createAccount aid cur fault => exact create_account_snd_proj st aid cur fault h
      | transfer t txid fault => exact transfer_funds_snd_proj s st t txid fault h

lemma transfer_funds_snd_cons (s : Settings) (st : LedgerState) (t : TransferRequest)
    (txid : Nat) (fault : StorageFault)
    (h : ∀ tid cur, txCreditSum st.events tid cur = txDebitSum st.events tid cur) :
    ∀ tid cur, txCreditSum (LedgerService.transfer_funds s st t txid fault).2.events tid cur =
      txDebitSum (LedgerService.transfer_funds s st t txid fault).2.events tid cur := by
  intro tid cur
  unfold LedgerService.transfer_funds
  split
  case isTrue hval =>
    unfold LedgerService.transferTx
    split
    · exact h tid cur
    · split
      · exact h tid cur
      · split
        · exact h tid cur
        · split
          · exact h tid cur
          · simp only [txCreditSum_append, txDebitSum_append, txCreditSum_pair,
              txDebitSum_pair, h tid cur]
  case isFalse hval => exact h tid cur

lemma create_account_snd_cons (st : LedgerState) (aid : Nat) (cur : String)
    (fault : CreateFault)
    (h : ∀ tid c, txCreditSum st.events tid c = txDebitSum st.events tid c) :
    ∀ tid c, txCreditSum (LedgerService.create_account st aid cur fault).2.events tid c =
      txDebitSum (LedgerService.create_account st aid cur fault).2.events tid c := by
  intro tid c
  cases fault <;> exact h tid c

lemma runOps_cons_aux (s : Settings) (ops : List Op) :
    ∀ st, (∀ tid cur, txCreditSum st.events tid cur = txDebitSum st.events tid cur) →
      ∀ tid cur, txCreditSum (ops.foldl (applyOp s) st).events tid cur =
        txDebitSum (ops.foldl (applyOp s) st).events tid cur := by
  induction ops with
  | nil => intro st h; exact h
  | cons op rest ih =>
      intro st h
      apply ih
      cases op with
      | createAccount aid cur fault => exact create_account_snd_cons st aid cur fault h
      | transfer t txid fault => exact transfer_funds_snd_cons s st t txid fault h

/-- Exhaustive case analysis of `transfer_funds`: every failing path returns
the caller's state unchanged; the success path appends the event pair and
projects the two deltas. -/
lemma transfer_funds_cases (s : Settings) (st : LedgerState) (t : TransferRequest)
    (txid : Nat) (fault : StorageFault) :
    ((LedgerService.transfer_funds s st t txid fault).2 = st ∧
      (LedgerService.transfer_funds s st t txid fault).1.isSuccess = false) ∨
    ((LedgerService.transfer_funds s st t txid fault).1 =
        TransferOutcome.success txid (EventStore.create_transfer_events txid t) ∧
      CommandProcessor.validate_transfer st.accounts s t = [] ∧
      (LedgerService.transfer_funds s st t txid fault).2 =
        { st with
          events := st.events ++ EventStore.create_transfer_events txid t
          balances := ProjectionEngine.project_events_to_balances st.balances
            (EventStore.create_transfer_events txid t) }) := by
  unfold LedgerService.transfer_funds
  split
  case isTrue hval =>
    unfold LedgerService.transferTx
    split
    · exact Or.inl ⟨rfl, rfl⟩
    · split
      · exact Or.inl ⟨rfl, rfl⟩
      · split
        · exact Or.inl ⟨rfl, rfl⟩
        · split
          · exact Or.inl ⟨rfl, rfl⟩
          · exact Or.inr ⟨rfl, hval, rfl⟩
  case isFalse hval => exact Or.inl ⟨rfl, rfl⟩

/-- C1: a transfer that does not succeed — validation failure, in-transaction
insufficient-funds failure, or a storage exception during event append or
balance projection (which the service re-raises after rollback, surfaced as
an HTTP error) — leaves no event carrying its transaction_id and leaves the
available balance and version of the source and destination untouched; a
successful transfer writes both events and moves `amount` from the source's
available balance to the destination's. -/
theorem C1_transfer_atomicity (s : Settings) (st : LedgerState) (t : TransferRequest)
    (txid : Nat) (fault : StorageFault)
    (hfresh : ∀ e ∈ st.events, e.transaction_id ≠ txid) :
    ((LedgerService.transfer_funds s st t txid fault).1.isSuccess = false →
      (∀ e ∈ (LedgerService.transfer_funds s st t txid fault).2.events,
          e.transaction_id ≠ txid) ∧
      availOf (LedgerService.transfer_funds s st t txid fault).2 t.source_account_id =
        availOf st t.source_account_id ∧
      availOf (LedgerService.transfer_funds s st t txid fault).2 t.destination_account_id =
        availOf st t.destination_account_id ∧
      versionOf (LedgerService.transfer_funds s st t txid fault).2 t.source_account_id =
        versionOf st t.source_account_id ∧
      versionOf (LedgerService.transfer_funds s st t txid fault).2 t.destination_account_id =
        versionOf st t.destination_account_id) ∧
    ((LedgerService.transfer_funds s st t txid fault).1.isSuccess = true →
      EventStore.debitEvent txid t ∈ (LedgerService.transfer_funds s st t txid fault).2.events ∧
      EventStore.creditEvent txid t ∈ (LedgerService.transfer_funds s st t txid fault).2.events ∧
      availOf (LedgerService.transfer_funds s st t txid fault).2 t.source_account_id =
        availOf st t.source_account_id - t.amount ∧
      availOf (LedgerService.transfer_funds s st t txid fault).2 t.destination_account_id =
        availOf st t.destination_account_id + t.amount) := by
  rcases transfer_funds_cases s st t txid fault with ⟨h2, h1⟩ | ⟨h1, hval, h2⟩
  · refine ⟨fun _ => ?_, fun hcc => ?_⟩
    · rw [h2]; exact ⟨hfresh, rfl, rfl, rfl, rfl⟩
    · rw [h1] at hcc; cases hcc
  · have hne := validate_transfer_nil_ne st.accounts s t hval
    refine ⟨fun hff => ?_, fun _ => ?_⟩
    · rw [h1] at hff; simp [TransferOutcome.isSuccess] at hff
    · rw [h2]
      refine ⟨?_, ?_, ?_, ?_⟩
      · simp [EventStore.create_transfer_events]
      · simp [EventStore.create_transfer_events]
      · simp only [availOf]
        rw [project_pair st.balances txid t hne, availQ_upsert, availQ_upsert]
        simp [hne, Ne.symm hne]
        ring
      · simp only [availOf]
        rw [project_pair st.balances txid t hne, availQ_upsert, availQ_upsert]
        simp [hne, Ne.symm hne]

/-- C1 witness: a concrete successful transfer of 30 USD from account 1
(holding 100) to account 2 (holding 0). -/
theorem C1_transfer_atomicity_witness :
    availOf (LedgerService.transfer_funds defaultSettings
      { accounts := fun a => if a = 1 then some "USD" else if a = 2 then some "USD" else none
        events := []
        balances := fun a =>
          if a = 1 then some ⟨"USD", 100, 0, 0⟩
          else if a = 2 then some ⟨"USD", 0, 0, 0⟩
          else none }
      { source_account_id := 1, destination_account_id := 2, amount := 30, currency := "USD" }
      7 StorageFault.ok).2 2 =
    availOf
      { accounts := fun a => if a = 1 then some "USD" else if a = 2 then some "USD" else none
        events := []
        balances := fun a =>
          if a = 1 then some ⟨"USD", 100, 0, 0⟩
          else if a = 2 then some ⟨"USD", 0, 0, 0⟩
          else none } 2 + 30 :=
  ((C1_transfer_atomicity defaultSettings _ _ 7 StorageFault.ok
    (by intro e he; cases he)).2 (by decide)).2.2.2

/-- C2: after any sequence of create_account and transfer_funds operations
starting from empty storage, the stored available balance of every account
equals the sum of SETTLED CREDIT amounts into it minus the sum of SETTLED
DEBIT amounts out of it (accounts without a balance row read as 0). -/
theorem C2_balance_projection_law (s : Settings) (ops : List Op) (a : Nat) :
    availOf (runOps s ops) a =
      settledCreditSum (runOps s ops).events a - settledDebitSum (runOps s ops).events a := by
  unfold runOps
  refine runOps_proj_aux s ops LedgerState.empty (fun a => ?_) a
  simp [availOf, availQ, LedgerState.empty, settledCreditSum, settledDebitSum]

/-- C3: a successful transfer appends exactly one DEBIT (source set,
destination null) and one CREDIT (destination set, source null), equal
amount and currency, both SETTLED under the same fresh transaction_id; and
across any operation sequence the CREDIT and DEBIT sums agree for every
transaction_id and currency. -/
theorem C3_double_entry_events :
    (∀ (s : Settings) (st : LedgerState) (t : TransferRequest) (txid : Nat)
        (fault : StorageFault) (tid : Nat) (evs : List LedgerEvent),
      (LedgerService.transfer_funds s st t txid fault).1 = TransferOutcome.success tid evs →
        tid = txid ∧
        evs = [{ source_account_id := some t.source_account_id
                 destination_account_id := none
                 amount := t.amount
                 currency := t.currency
                 event_type := EventType.DEBIT
                 transaction_id := txid
                 status := EventStatus.SETTLED },
               { source_account_id := none
                 destination_account_id := some t.destination_account_id
                 amount := t.amount
                 currency := t.currency
                 event_type := EventType.CREDIT
                 transaction_id := txid
                 status := EventStatus.SETTLED }] ∧
        (LedgerService.transfer_funds s st t txid fault).2.events = st.events ++ evs) ∧
    (∀ (s : Settings) (ops : List Op) (tid : Nat) (cur : String),
      txCreditSum (runOps s ops).events tid cur = txDebitSum (runOps s ops).events tid cur) := by
  constructor
  · intro s st t txid fault tid evs h
    rcases transfer_funds_cases s st t txid fault with ⟨_, h1⟩ | ⟨h1, _, h2⟩
    · rw [h] at h1; cases h1
    · rw [h1] at h
      injection h with h3 h4
      subst h3
      refine ⟨rfl, h4.symm, ?_⟩
      rw [h2, h4]
  · intro s ops tid cur
    unfold runOps
    refine runOps_cons_aux s ops LedgerState.empty (fun tid cur => ?_) tid cur
    simp [LedgerState.empty, txCreditSum, txDebitSum]

/-- C3 witness: the successful 30 USD transfer from account 1 to account 2
produces exactly the debit/credit pair under transaction_id 7. -/
theorem C3_double_entry_events_witness :
    (LedgerService.transfer_funds defaultSettings
      { accounts := fun a => if a = 1 then some "USD" else if a = 2 then some "USD" else none
        events := []
        balances := fun a =>
          if a = 1 then some ⟨"USD", 100, 0, 0⟩
          else if a = 2 then some ⟨"USD", 0, 0, 0⟩
          else none }
      { source_account_id := 1, destination_account_id := 2, amount := 30, currency := "USD" }
      7 StorageFault.ok).2.events =
    [] ++ [{ source_account_id := some 1
             destination_account_id := none
             amount := 30
             currency := "USD"
             event_type := EventType.DEBIT
             transaction_id := 7
             status := EventStatus.SETTLED },
           { source_account_id := none
             destination_account_id := some 2
             amount := 30
             currency := "USD"
             event_type := EventType.CREDIT
             transaction_id := 7
             status := EventStatus.SETTLED }] := by
  have h := (C3_double_entry_events.1 defaultSettings
    { accounts := fun a => if a = 1 then some "USD" else if a = 2 then some "USD" else none
      events := []
      balances := fun a =>
        if a = 1 then some ⟨"USD", 100, 0, 0⟩
        else if a = 2 then some ⟨"USD", 0, 0, 0⟩
        else none }
    { source_account_id := 1, destination_account_id := 2, amount := 30, currency := "USD" }
    7 StorageFault.ok 7
    (EventStore.create_transfer_events 7
      { source_account_id := 1, destination_account_id := 2, amount := 30, currency := "USD" })
    (by decide))
  rw [h.2.2, h.2.1]

/-- C4: the ExactMatcher decision procedure. A cross-referenced candidate
(ledger metadata `external_txn_id` equal to the external id, or external
metadata `ledger_txn_id` equal to the ledger id) is validated by re-checking
amount, currency and timestamp, the first failing check producing the
mismatch reason and all-pass yielding matched with score 1.0; with no
cross-reference, a unique amount+currency+tolerance candidate validates to
matched (its validation necessarily passes), several candidates yield
"Multiple exact amount matches found", and none yields
"No exact match found". -/
theorem C4_exact_matcher_decision (cfg : ReconSettings) (ext : ExternalTxn)
    (ltxns : List LedgerTxn) :
    (∀ l, find_exact_id_match ext ltxns = some l →
        ExactMatcher.matchTxn cfg ext ltxns = validate_exact_match cfg ext l ∧
        crossRef ext l ∧ l ∈ ltxns) ∧
    (find_exact_id_match ext ltxns = none ↔ ∀ l ∈ ltxns, ¬crossRef ext l) ∧
    (∀ l, l ∈ find_exact_amount_matches cfg ext ltxns ↔
        l ∈ ltxns ∧ amountMatchCond cfg ext l) ∧
    (find_exact_id_match ext ltxns = none →
      (find_exact_amount_matches cfg ext ltxns = [] →
          ExactMatcher.matchTxn cfg ext ltxns =
            create_match_result "ExactMatcher" ext none false 0
              (some "No exact match found")) ∧
      (1 < (find_exact_amount_matches cfg ext ltxns).length →
          ExactMatcher.matchTxn cfg ext ltxns =
            create_match_result "ExactMatcher" ext none false 0
              (some "Multiple exact amount matches found")) ∧
      (∀ l, find_exact_amount_matches cfg ext ltxns = [l] →
          ExactMatcher.matchTxn cfg ext ltxns =
            create_match_result "ExactMatcher" ext (some l) true 1 none)) ∧
    (∀ l, (ext.amount ≠ l.amount →
            validate_exact_match cfg ext l =
              create_match_result "ExactMatcher" ext (some l) false 0
                (some ("Amount mismatch: external=" ++ toString ext.amount ++
                  ", ledger=" ++ toString l.amount))) ∧
          (ext.amount = l.amount → ext.currency ≠ l.currency →
            validate_exact_match cfg ext l =
              create_match_result "ExactMatcher" ext (some l) false 0
                (some ("Currency mismatch: external=" ++ ext.currency ++
                  ", ledger=" ++ l.currency))) ∧
          (ext.amount = l.amount → ext.currency = l.currency →
            cfg.timestamp_tolerance_seconds < ((|l.timestamp - ext.timestamp| : Int) : ℚ) →
            validate_exact_match cfg ext l =
              create_match_result "ExactMatcher" ext (some l) false 0
                (some ("Timestamp outside tolerance: diff=" ++
                  toString (|l.timestamp - ext.timestamp|) ++ "s"))) ∧
          (ext.amount = l.amount → ext.currency = l.currency →
            ((|l.timestamp - ext.timestamp| : Int) : ℚ) ≤ cfg.timestamp_tolerance_seconds →
            validate_exact_match cfg ext l =
              create_match_result "ExactMatcher" ext (some l) true 1 none)) := by
  refine ⟨?_, ?_, ?_, ?_, ?_⟩
  · intro l h
    refine ⟨?_, ?_, List.mem_of_find?_eq_some h⟩
    · unfold ExactMatcher.matchTxn
      rw [h]
    · have := List.find?_some h
      exact of_decide_eq_true this
  · simp [find_exact_id_match, List.find?_eq_none]
  · intro l
    simp [find_exact_amount_matches, List.mem_filter]
  · intro h0
    refine ⟨?_, ?_, ?_⟩
    · intro hnil
      unfold ExactMatcher.matchTxn
      rw [h0, hnil]
    · intro hlen
      unfold ExactMatcher.matchTxn
      rw [h0]
      rcases hl : find_exact_amount_matches cfg ext ltxns with _ | ⟨a, _ | ⟨b, tl⟩⟩
      · rw [hl] at hlen; simp at hlen
      · rw [hl] at hlen; simp at hlen
      · rfl
    · intro l hone
      have hmem : l ∈ find_exact_amount_matches cfg ext ltxns := by
        rw [hone]; exact List.mem_singleton_self l
      have hcond : amountMatchCond cfg ext l := by
        have := List.of_mem_filter hmem
        exact of_decide_eq_true this
      obtain ⟨ha, hc, ht⟩ := hcond
      unfold ExactMatcher.matchTxn
      rw [h0, hone]
      show validate_exact_match cfg ext l = _
      unfold validate_exact_match
      rw [if_neg (by simp [ha]), if_neg (by simp [hc]), if_neg (not_lt.mpr ht)]
  · intro l
    refine ⟨?_, ?_, ?_, ?_⟩
    · intro h1
      unfold validate_exact_match
      rw [if_pos h1]
    · intro h1 h2
      unfold validate_exact_match
      rw [if_neg (by simp [h1]), if_pos h2]
    · intro h1 h2 h3
      unfold validate_exact_match
      rw [if_neg (by simp [h1]), if_neg (by simp [h2]), if_pos h3]
    · intro h1 h2 h3
      unfold validate_exact_match
      rw [if_neg (by simp [h1]), if_neg (by simp [h2]), if_neg (not_lt.mpr h3)]

/-- C4 witness: one candidate matching on amount, currency and timestamp is
validated to an exact match with score 1.0. -/
theorem C4_exact_matcher_decision_witness :
    ExactMatcher.matchTxn defaultReconSettings
      ⟨"E1", 100, "USD", 0, none, []⟩
      [⟨"L1", "T1", 100, "USD", 60, "CREDIT", []⟩] =
    create_match_result "ExactMatcher"
      ⟨"E1", 100, "USD", 0, none, []⟩
      (some ⟨"L1", "T1", 100, "USD", 60, "CREDIT", []⟩)
      true 1 none :=
  ((C4_exact_matcher_decision defaultReconSettings
      ⟨"E1", 100, "USD", 0, none, []⟩
      [⟨"L1", "T1", 100, "USD", 60, "CREDIT", []⟩]).2.2.2.1
    (by decide)).2.2 _ (by decide)

/-- C5: evaluating the validator at the failing input — a transfer whose
source equals its destination (existing USD account 1, amount 10, within
limits). The only violated rule produces the single error
"Source and destination accounts must be different", and no error in the
list mentions "same" (case-folded substring, as the repository's own test
test_invalid_transfer_same_account checks with
`any("same" in error.lower() for error in result["errors"])`). -/
theorem C5_same_account_error_eval :
    CommandProcessor.validate_transfer
      (fun a => if a = 1 then some "USD" else none) defaultSettings
      { source_account_id := 1, destination_account_id := 1, amount := 10, currency := "USD" }
      = ["Source and destination accounts must be different"] ∧
    ((CommandProcessor.validate_transfer
      (fun a => if a = 1 then some "USD" else none) defaultSettings
      { source_account_id := 1, destination_account_id := 1, amount := 10, currency := "USD" }).all
        fun e => !(strContains (pyLower e) "same")) = true := by
  exact ⟨by decide, by decide⟩

/-- C6 counterexample: starting from empty storage, a create_account call
whose balance insert fails leaves the account row committed with no balance
row — refuting "after any create call either both the account row and its
balance row exist or neither does". -/
theorem C6_create_account_counterexample :
    (LedgerService.create_account LedgerState.empty 1 "USD"
        CreateFault.onBalanceInsert).2.accounts 1 = some "USD" ∧
    (LedgerService.create_account LedgerState.empty 1 "USD"
        CreateFault.onBalanceInsert).2.balances 1 = none := by
  exact ⟨rfl, rfl⟩

/-- C6 amended: create_account inserts the Account row on its own
auto-committing connection and only then initialises the Balance row (zero
available, zero pending, version 0) in a second, separate transaction; on
full success both rows exist, a fault during the balance insert leaves the
account row without a balance row, and a fault during the account insert
leaves storage untouched. -/
theorem C6_create_account_two_step (st : LedgerState) (aid : Nat) (cur : String)
    (fault : CreateFault) (hbal : st.balances aid = none) :
    (fault = CreateFault.ok →
      (LedgerService.create_account st aid cur fault).1 = CreateOutcome.ok ∧
      (LedgerService.create_account st aid cur fault).2.accounts aid = some cur ∧
      (LedgerService.create_account st aid cur fault).2.balances aid =
        some { currency := cur, available_balance := 0, pending_balance := 0, version := 0 }) ∧
    (fault = CreateFault.onBalanceInsert →
      (LedgerService.create_account st aid cur fault).1 = CreateOutcome.storageError ∧
      (LedgerService.create_account st aid cur fault).2.accounts aid = some cur ∧
      (LedgerService.create_account st aid cur fault).2.balances aid = none) ∧
    (fault = CreateFault.onAccountInsert →
      (LedgerService.create_account st aid cur fault).2 = st) := by
  refine ⟨?_, ?_, ?_⟩
  · rintro rfl
    refine ⟨rfl, by simp [LedgerService.create_account, AccountRepository.create], ?_⟩
    simp [LedgerService.create_account, BalanceRepository.upsert_balance, hbal]
  · rintro rfl
    exact ⟨rfl, by simp [LedgerService.create_account, AccountRepository.create], hbal⟩
  · rintro rfl
    rfl

/-- C6 witness: a fresh create on empty storage succeeds and writes both
rows. -/
theorem C6_create_account_two_step_witness :
    (LedgerService.create_account LedgerState.empty 1 "USD" CreateFault.ok).2.balances 1 =
      some { currency := "USD", available_balance := 0, pending_balance := 0, version := 0 } :=
  ((C6_create_account_two_step LedgerState.empty 1 "USD" CreateFault.ok rfl).1 rfl).2.2

/-- C7: evaluating the fuzzy scorer at the failing inputs. For external
amount 100 against ledger amount 100.05 (same currency, same timestamp) the
within-tolerance branch raises the Decimal/float TypeError instead of
returning a score; for external amount 1 against ledger amount 10 in a
different currency the outside-tolerance branch raises before the currency
gate could produce 0. The spec formula is the clear intent; the code raises
on every unequal-amount pair with non-zero average, so no fuzzy score
exists there at all. -/
theorem C7_typeerror_eval :
    calculate_match_score (fun _ _ => 0) defaultReconSettings
      ⟨"E1", 100, "USD", 0, none, []⟩
      ⟨"L1", "T1", 2001/20, "USD", 0, "CREDIT", []⟩ =
      Except.error typeErrorDivMsg ∧
    calculate_match_score (fun _ _ => 0) defaultReconSettings
      ⟨"E1", 1, "USD", 0, none, []⟩
      ⟨"L1", "T1", 10, "EUR", 0, "CREDIT", []⟩ =
      Except.error typeErrorSubMsg := by
  constructor
  · have h1 : |(100:ℚ) - 2001/20| = 1/20 := by rw [abs_of_nonpos] <;> norm_num
    have h2 : |(1/20 : ℚ)| = 1/20 := abs_of_nonneg (by norm_num)
    norm_num [calculate_match_score, calculate_amount_similarity,
      defaultReconSettings, h1, h2]
  · have h1 : |(1:ℚ) - 10| = 9 := by rw [abs_of_nonpos] <;> norm_num
    norm_num [calculate_match_score, calculate_amount_similarity,
      defaultReconSettings, h1]

/-! # Helper lemmas: timestamp similarity monotonicity -/

lemma ts_sim_of_diff_antitone (T d1 d2 : ℚ) (hT : 0 < T) (h0 : 0 ≤ d1)
    (h12 : d1 ≤ d2) : ts_sim_of_diff T d2 ≤ ts_sim_of_diff T d1 := by
  unfold ts_sim_of_diff
  by_cases h1 : d1 ≤ T
  · rw [if_pos h1]
    have hd1T : d1 / T ≤ 1 := (div_le_one hT).mpr h1
    by_cases h2 : d2 ≤ T
    · rw [if_pos h2]
      have : d1 / T ≤ d2 / T := by gcongr
      nlinarith
    · rw [if_neg h2]
      push_neg at h2
      by_cases h3 : T * 10 < d2
      · rw [if_pos h3]
        nlinarith
      · rw [if_neg h3]
        push_neg at h3
        have ha : 0 ≤ (d2 - T) / (T * 10 - T) :=
          div_nonneg (by linarith) (by linarith)
        nlinarith
  · rw [if_neg h1]
    push_neg at h1
    rw [if_neg (by push_neg; linarith : ¬d2 ≤ T)]
    by_cases h3 : T * 10 < d2
    · rw [if_pos h3]
      by_cases h4 : T * 10 < d1
      · rw [if_pos h4]
      · rw [if_neg h4]
        push_neg at h4
        have : (d1 - T) / (T * 10 - T) ≤ 1 :=
          (div_le_one (by linarith)).mpr (by linarith)
        nlinarith
    · rw [if_neg h3]
      push_neg at h3
      rw [if_neg (by push_neg; linarith : ¬T * 10 < d1)]
      have h9 : (0:ℚ) < T * 10 - T := by linarith
      have : (d1 - T) / (T * 10 - T) ≤ (d2 - T) / (T * 10 - T) := by gcongr
      nlinarith

/-- C8 counterexample: the claim asserts the amount similarity is a
monotonically non-increasing function of its difference across the
within-tolerance and outside-tolerance branches. At ledger amount 10 and
external amount 1 (relative difference outside tolerance) and at ledger
amount 1000.001 and external amount 1000 (within tolerance), the program
raises the Decimal/float TypeError rather than computing any amount
similarity, so away from equal amounts the function has no values at all,
let alone monotone ones, in either branch. -/
theorem C8_monotonicity_counterexample :
    calculate_amount_similarity defaultReconSettings 1 10 =
      Except.error typeErrorSubMsg ∧
    calculate_amount_similarity defaultReconSettings 1000 (1000001/1000) =
      Except.error typeErrorDivMsg := by
  constructor
  · have h1 : |(1:ℚ) - 10| = 9 := by rw [abs_of_nonpos] <;> norm_num
    norm_num [calculate_amount_similarity, defaultReconSettings, h1]
  · have h1 : |(1000:ℚ) - 1000001/1000| = 1/1000 := by
      rw [abs_of_nonpos] <;> norm_num
    have h2 : |(1/1000 : ℚ)| = 1/1000 := abs_of_nonneg (by norm_num)
    norm_num [calculate_amount_similarity, defaultReconSettings, h1, h2]

/-- C8 amended: the timestamp similarity is monotonically non-increasing in
|time_diff| across both branches and the boundary, exactly as claimed (its
arithmetic is all-float and total); the amount similarity is returned only
for equal amounts (1.0) or zero-average pairs (0.0) — on every other input
both branch expressions mix Decimal and float and raise TypeError, so the
claimed branch-crossing monotonicity in |amount_diff| concerns values the
program never computes. -/
theorem C8_similarity_monotonicity :
    (∀ (cfg : ReconSettings), 0 < cfg.timestamp_tolerance_seconds →
      ∀ (tl t1 t2 : Int), |t1 - tl| ≤ |t2 - tl| →
        calculate_timestamp_similarity cfg t2 tl ≤
          calculate_timestamp_similarity cfg t1 tl) ∧
    (∀ (cfg : ReconSettings) (a b : ℚ),
      (a = b → calculate_amount_similarity cfg a b = Except.ok 1) ∧
      (a ≠ b → (a + b) / 2 = 0 →
        calculate_amount_similarity cfg a b = Except.ok 0) ∧
      (a ≠ b → (a + b) / 2 ≠ 0 →
        calculate_amount_similarity cfg a b = Except.error typeErrorDivMsg ∨
        calculate_amount_similarity cfg a b = Except.error typeErrorSubMsg)) := by
  constructor
  · intro cfg htt tl t1 t2 h
    unfold calculate_timestamp_similarity
    refine ts_sim_of_diff_antitone _ _ _ htt (by positivity) ?_
    exact_mod_cast h
  · intro cfg a b
    refine ⟨?_, ?_, ?_⟩
    · intro h
      simp [calculate_amount_similarity, h]
    · intro h1 h2
      simp [calculate_amount_similarity, h1, h2]
    · intro h1 h2
      unfold calculate_amount_similarity
      rw [if_neg h1, if_neg h2]
      split
      · exact Or.inl rfl
      · exact Or.inr rfl

/-- C8 witness: with the default tolerance, a 20-second difference scores no
higher than a 10-second difference. -/
theorem C8_similarity_monotonicity_witness :
    calculate_timestamp_similarity defaultReconSettings 20 0 ≤
      calculate_timestamp_similarity defaultReconSettings 10 0 :=
  C8_similarity_monotonicity.1 defaultReconSettings
    (by norm_num [defaultReconSettings]) 0 10 20 (by decide)

/-! # Helper lemmas: the orchestrator loop -/

lemma runFold_go (step : ExternalTxn → Except String MatchResult) :
    ∀ (exts : List ExternalTxn) (acc : List LoggedRow × Nat × Nat),
      exts.foldl
        (fun (acc : List LoggedRow × Nat × Nat) ext =>
          match step ext with
          | .ok r =>
              (acc.1 ++ [ReconLogger.log_result r],
               if r.matched then acc.2.1 + 1 else acc.2.1,
               if r.matched then acc.2.2 else acc.2.2 + 1)
          | .error msg =>
              (acc.1 ++ [ReconLogger.log_result (processing_error_result ext msg)],
               acc.2.1,
               acc.2.2 + 1))
        acc =
      (acc.1 ++ exts.map (rowFor step),
       acc.2.1 + exts.countP (stepMatched step),
       acc.2.2 + exts.countP fun e => !stepMatched step e) := by
  intro exts
  induction exts with
  | nil => intro acc; simp
  | cons e tl ih =>
      intro acc
      rw [List.foldl_cons, ih]
      rcases hs : step e with msg | r
      · simp only [hs, List.map_cons, List.countP_cons, rowFor, stepMatched, hs]
        refine Prod.ext ?_ (Prod.ext ?_ ?_) <;> simp [rowFor, stepMatched, hs] <;> omega
      · simp only [hs, List.map_cons, List.countP_cons, rowFor, stepMatched, hs]
        rcases hm : r.matched
        · refine Prod.ext ?_ (Prod.ext ?_ ?_) <;>
            simp [rowFor, stepMatched, hs, hm] <;> omega
        · refine Prod.ext ?_ (Prod.ext ?_ ?_) <;>
            simp [rowFor, stepMatched, hs, hm] <;> omega

lemma countP_add_countP_not (p : ExternalTxn → Bool) (l : List ExternalTxn) :
    l.countP p + l.countP (fun a => !p a) = l.length := by
  induction l with
  | nil => simp
  | cons a tl ih => rcases hp : p a <;> simp [List.countP_cons, hp] <;> omega

lemma runFold_eq (step : ExternalTxn → Except String MatchResult)
    (exts : List ExternalTxn) :
    runFold step exts =
      (exts.map (rowFor step), exts.countP (stepMatched step),
       exts.countP fun e => !stepMatched step e) := by
  unfold runFold
  rw [runFold_go step exts ([], 0, 0)]
  simp

/-- C9: per-row exception containment in `ReconEngine.run`. Every external
transaction produces exactly one log row; a row whose matching step throws
is logged unmatched with match_score 0 and mismatch_reason
"Processing error: <msg>", counts as unmatched, and does not stop the
remaining rows from being processed; the job still finalises COMPLETED. -/
theorem C9_exception_containment (step : ExternalTxn → Except String MatchResult)
    (externals : List ExternalTxn) :
    (ReconEngine.run step externals).status = ReconStatus.COMPLETED ∧
    (ReconEngine.run step externals).logs = externals.map (rowFor step) ∧
    (ReconEngine.run step externals).matched_count =
      externals.countP (stepMatched step) ∧
    (ReconEngine.run step externals).unmatched_count =
      externals.countP (fun e => !stepMatched step e) ∧
    (ReconEngine.run step externals).matched_count +
      (ReconEngine.run step externals).unmatched_count = externals.length ∧
    (∀ ext msg, step ext = .error msg →
      rowFor step ext = ReconLogger.log_result (processing_error_result ext msg) ∧
      (rowFor step ext).matched = false ∧
      (rowFor step ext).match_score = 0 ∧
      (rowFor step ext).mismatch_reason = some ("Processing error: " ++ msg)) := by
  refine ⟨rfl, ?_, ?_, ?_, ?_, ?_⟩
  · show (runFold step externals).1 = _
    rw [runFold_eq]
  · show (runFold step externals).2.1 = _
    rw [runFold_eq]
  · show (runFold step externals).2.2 = _
    rw [runFold_eq]
  · show (runFold step externals).2.1 + (runFold step externals).2.2 = _
    rw [runFold_eq]
    exact countP_add_countP_not (stepMatched step) externals
  · intro ext msg h
    refine ⟨?_, ?_, ?_, ?_⟩ <;>
      simp [rowFor, h, ReconLogger.log_result, processing_error_result]

/-- C9 witness: a run whose only row throws completes with that row logged
as a processing error. -/
theorem C9_exception_containment_witness :
    (ReconEngine.run (fun _ => Except.error "boom")
      [⟨"E1", 100, "USD", 0, none, []⟩]).status = ReconStatus.COMPLETED ∧
    (rowFor (fun _ => Except.error "boom")
      ⟨"E1", 100, "USD", 0, none, []⟩).mismatch_reason =
      some ("Processing error: " ++ "boom") :=
  ⟨(C9_exception_containment (fun _ => Except.error "boom")
      [⟨"E1", 100, "USD", 0, none, []⟩]).1,
   ((C9_exception_containment (fun _ => Except.error "boom")
      [⟨"E1", 100, "USD", 0, none, []⟩]).2.2.2.2.2
      ⟨"E1", 100, "USD", 0, none, []⟩ "boom" rfl).2.2.2⟩

/-! # Helper lemmas: no result metadata ever carries a "currency" key -/

lemma lookup_cons_pair (k' : String) (p : String × String)
    (tl : List (String × String)) :
    ((p :: tl).lookup k') = if k' = p.1 then some p.2 else tl.lookup k' := by
  by_cases h : k' = p.1
  · rw [if_pos h]
    show (match k' == p.1 with
      | true => some p.2
      | false => tl.lookup k') = some p.2
    rw [beq_iff_eq.mpr h]
  · rw [if_neg h]
    show (match k' == p.1 with
      | true => some p.2
      | false => tl.lookup k') = tl.lookup k'
    rw [beq_eq_false_iff_ne.mpr h]

lemma lookup_map_setkey (k v k' : String) (h : k' ≠ k) :
    ∀ (m : List (String × String)),
      ((m.map fun p => if p.1 = k then (p.1, v) else p).lookup k') = m.lookup k' := by
  intro m
  induction m with
  | nil => rfl
  | cons p tl ih =>
      by_cases hp : p.1 = k
      · simp only [List.map_cons]
        rw [if_pos hp, lookup_cons_pair, lookup_cons_pair]
        have hk : k' ≠ p.1 := fun he => h (he.trans hp)
        rw [if_neg hk, if_neg hk]
        exact ih
      · simp only [List.map_cons]
        rw [if_neg hp, lookup_cons_pair, lookup_cons_pair]
        by_cases hk : k' = p.1
        · rw [if_pos hk, if_pos hk]
        · rw [if_neg hk, if_neg hk]
          exact ih

lemma lookup_append_single_ne (k v k' : String) (h : k' ≠ k) :
    ∀ (m : List (String × String)), ((m ++ [(k, v)]).lookup k') = m.lookup k' := by
  intro m
  induction m with
  | nil =>
      show ((((k, v) : String × String) :: []).lookup k') = _
      rw [lookup_cons_pair, if_neg h]
  | cons p tl ih =>
      simp only [List.cons_append]
      rw [lookup_cons_pair, lookup_cons_pair]
      by_cases hk : k' = p.1
      · rw [if_pos hk, if_pos hk]
      · rw [if_neg hk, if_neg hk]
        exact ih

lemma lookup_metaSet_ne (m : List (String × String)) (k v k' : String) (h : k' ≠ k) :
    (metaSet m k v).lookup k' = m.lookup k' := by
  unfold metaSet
  split
  · exact lookup_map_setkey k v k' h m
  · exact lookup_append_single_ne k v k' h m

lemma lookup_metaUpdate_ne (kvs : List (String × String)) (k' : String)
    (h : ∀ p ∈ kvs, p.1 ≠ k') :
    ∀ (m : List (String × String)), (metaUpdate m kvs).lookup k' = m.lookup k' := by
  induction kvs with
  | nil => intro m; rfl
  | cons p tl ih =>
      intro m
      show (metaUpdate (metaSet m p.1 p.2) tl).lookup k' = _
      rw [ih (fun q hq => h q (List.mem_cons_of_mem p hq)),
        lookup_metaSet_ne m p.1 p.2 k'
          (Ne.symm (h p (List.mem_cons_self p tl)))]

lemma lookup_currency_create (name : String) (ext : ExternalTxn)
    (ol : Option LedgerTxn) (m : Bool) (s : ℚ) (r : Option String) :
    (create_match_result name ext ol m s r).metadata.lookup "currency" = none := rfl

lemma lookup_currency_exact (cfg : ReconSettings) (ext : ExternalTxn)
    (ltxns : List LedgerTxn) :
    (ExactMatcher.matchTxn cfg ext ltxns).metadata.lookup "currency" = none := by
  unfold ExactMatcher.matchTxn validate_exact_match
  split
  · split_ifs <;> exact lookup_currency_create _ _ _ _ _ _
  · split
    · split_ifs <;> exact lookup_currency_create _ _ _ _ _ _
    · exact lookup_currency_create _ _ _ _ _ _
    · exact lookup_currency_create _ _ _ _ _ _

lemma lookup_currency_fuzzy (strSim : String → String → ℚ) (cfg : ReconSettings)
    (ext : ExternalTxn) (ltxns : List LedgerTxn) :
    ∀ r, FuzzyMatcher.matchTxn strSim cfg ext ltxns = Except.ok r →
      r.metadata.lookup "currency" = none := by
  intro r h
  unfold FuzzyMatcher.matchTxn at h
  rcases hb : fuzzyBest strSim cfg ext ltxns (none, 0) with e | best
  · rw [hb] at h; simp at h
  · rw [hb] at h
    have h' : (if cfg.min_match_score ≤ best.2 then
        Except.ok (create_match_result "FuzzyMatcher" ext best.1 true best.2 none)
      else Except.ok (create_match_result "FuzzyMatcher" ext best.1 false best.2
        (some ("Best match score " ++ toString best.2 ++ " below threshold " ++
          toString cfg.min_match_score)))) = Except.ok r := h
    by_cases hc : cfg.min_match_score ≤ best.2
    · rw [if_pos hc] at h'
      injection h' with h2
      subst h2
      exact lookup_currency_create _ _ _ _ _ _
    · rw [if_neg hc] at h'
      injection h' with h2
      subst h2
      exact lookup_currency_create _ _ _ _ _ _

lemma lookup_currency_match_transaction (strSim : String → String → ℚ)
    (cfg : ReconSettings) (ext : ExternalTxn) (ltxns : List LedgerTxn) :
    ∀ r, match_transaction strSim cfg ext ltxns = Except.ok r →
      r.metadata.lookup "currency" = none := by
  intro r h
  unfold match_transaction at h
  split at h
  · injection h with h2
    subst h2
    rfl
  · split at h
    · injection h with h2
      subst h2
      exact lookup_currency_exact cfg ext _
    · rcases hf : FuzzyMatcher.matchTxn strSim cfg ext (currencyFiltered ext ltxns)
        with e | fuzzy_result
      · rw [hf] at h; simp at h
      · rw [hf] at h
        injection h with h2
        subst h2
        split
        · exact lookup_currency_fuzzy strSim cfg ext _ fuzzy_result hf
        · exact lookup_currency_exact cfg ext _

lemma externalEnhancement_keys (ext : ExternalTxn) :
    ∀ p ∈ externalEnhancement ext, p.1 ≠ "currency" := by
  intro p hp
  simp only [externalEnhancement, List.mem_cons, List.not_mem_nil, or_false] at hp
  rcases hp with rfl | rfl | rfl | rfl <;> simp

lemma ledgerEnhancement_keys (l : LedgerTxn) :
    ∀ p ∈ ledgerEnhancement l, p.1 ≠ "currency" := by
  intro p hp
  simp only [ledgerEnhancement, List.mem_cons, List.not_mem_nil, or_false] at hp
  rcases hp with rfl | rfl | rfl | rfl <;> simp

lemma lookup_currency_enhance (r : MatchResult) (ext : ExternalTxn)
    (ltxns : List LedgerTxn) (h : r.metadata.lookup "currency" = none) :
    (enhance_match_result r ext ltxns).metadata.lookup "currency" = none := by
  unfold enhance_match_result
  split
  · rw [lookup_metaUpdate_ne _ _ (ledgerEnhancement_keys _),
      lookup_metaUpdate_ne _ _ (externalEnhancement_keys _)]
    exact h
  · rw [lookup_metaUpdate_ne _ _ (externalEnhancement_keys _)]
    exact h

/-- C10: every recon_logs row written during an orchestrator run (whose
per-row step is matching followed by enhancement) has a null currency
column: `log_result` reads the column from the metadata key "currency", and
neither the matchers nor the enhancement step ever set that key — they set
only external_currency and ledger_currency. -/
theorem C10_logged_currency_null (strSim : String → String → ℚ)
    (cfg : ReconSettings) (ltxns : List LedgerTxn) (externals : List ExternalTxn) :
    ∀ row ∈ (ReconEngine.run (pipelineStep strSim cfg ltxns) externals).logs,
      row.currency = none := by
  intro row hrow
  have hlogs : (ReconEngine.run (pipelineStep strSim cfg ltxns) externals).logs =
      externals.map (rowFor (pipelineStep strSim cfg ltxns)) := by
    show (runFold (pipelineStep strSim cfg ltxns) externals).1 = _
    rw [runFold_eq]
  rw [hlogs] at hrow
  rcases List.mem_map.mp hrow with ⟨e, _, rfl⟩
  unfold rowFor pipelineStep
  rcases hm : match_transaction strSim cfg e ltxns with msg | r
  · rfl
  · show (ReconLogger.log_result (enhance_match_result r e ltxns)).currency = none
    exact lookup_currency_enhance _ _ _
      (lookup_currency_match_transaction strSim cfg e ltxns r hm)

/-- C10 witness: the row logged for one external transaction against an
empty ledger population carries a null currency column. -/
theorem C10_logged_currency_null_witness :
    (rowFor (pipelineStep (fun _ _ => 0) defaultReconSettings [])
      ⟨"E1", 100, "USD", 0, none, []⟩).currency = none :=
  C10_logged_currency_null (fun _ _ => 0) defaultReconSettings []
    [⟨"E1", 100, "USD", 0, none, []⟩]
    (rowFor (pipelineStep (fun _ _ => 0) defaultReconSettings [])
      ⟨"E1", 100, "USD", 0, none, []⟩)
    (List.mem_singleton.mpr rfl)

end Kairon
